import Mathlib

/-!
# Verification of the Weez-Taskbox document model (src/app.py)

Shallow embedding of the per-user task document service. Each Flask
endpoint is modelled as a pure function from its request fields and the
stored blob state to a typed result together with the new blob state.
Time is passed explicitly (`now` in seconds, `nowMs` in milliseconds).
The Azure blob for one user key is modelled by `Stored`: either absent,
bytes that fail JSON decoding (`corrupt`), a legacy bare list of tasks,
or a canonical document.
-/

set_option autoImplicit false

namespace Taskbox

/-- A task object as stored in the document (`new_task` in `add_task`). -/
structure Task where
  id : Int
  text : String
  file_url : Option String
  completed : Bool
  created_at : Int
  last_edited : Option Int
  deriving Repr, DecidableEq

/-- The `stats` object of a canonical document.  `total_completed` is an
arbitrary integer because the stored value may be corrupted;
`active_tasks` is only ever present when `get_stats` wrote it back. -/
structure Stats where
  total_completed : Int
  created_at : Int
  active_tasks : Option Nat := none
  deriving Repr, DecidableEq

/-- A canonical user document: `{"tasks": [...], "stats": {...}}`. -/
structure UserDoc where
  tasks : List Task
  stats : Stats
  deriving Repr, DecidableEq

/-- The state of the user's blob in the container. -/
inductive Stored where
  | absent
  | corrupt
  | legacy (tasks : List Task)
  | canonical (doc : UserDoc)
  deriving Repr, DecidableEq

/-- `sum(1 for t in tasks if t.get("completed", False))`. -/
def completedCount (ts : List Task) : Nat :=
  (ts.filter (fun t => t.completed)).length

/-- `sum(1 for t in tasks if not t.get("completed", False))`. -/
def activeCount (ts : List Task) : Nat :=
  (ts.filter (fun t => !t.completed)).length

/-- Python truthiness test `not username` on an optional string:
true when the field is missing or the empty string. -/
def falsy : Option String → Bool
  | none => true
  | some s => s = ""

/-- `next((t for t in tasks if t['id'] == task_id), None)`. -/
def findTask (ts : List Task) (tid : Int) : Option Task :=
  ts.find? (fun t => t.id = tid)

/-- In-place mutation `task['completed'] = True` of the first task whose
id matches, as seen through the list it lives in. -/
def markFirst (ts : List Task) (tid : Int) : List Task :=
  match ts with
  | [] => []
  | t :: rest =>
    if t.id = tid then { t with completed := true } :: rest
    else t :: markFirst rest tid

/-- In-place mutation `task['text'] = new_text; task['last_edited'] = now`
of the first task whose id matches. -/
def editFirst (ts : List Task) (tid : Int) (txt : String) (now : Int) : List Task :=
  match ts with
  | [] => []
  | t :: rest =>
    if t.id = tid then { t with text := txt, last_edited := some now } :: rest
    else t :: editFirst rest tid txt now

/-- `task_index = next((i for i, t in ... if t['id'] == task_id), None)`
followed by `tasks[task_index]` and `tasks.pop(task_index)`: returns the
first matching task and the list with it removed, or `none`. -/
def removeFirst (ts : List Task) (tid : Int) : Option (Task × List Task) :=
  match ts with
  | [] => none
  | t :: rest =>
    if t.id = tid then some (t, rest)
    else
      match removeFirst rest tid with
      | none => none
      | some (x, rest') => some (x, t :: rest')

/-- Legacy migration used by `list_tasks`, `mark_task_completed`,
`delete_task` and `edit_task`: wraps the bare list and recomputes
`total_completed` by counting completed tasks. -/
def migrateLegacy (ts : List Task) (now : Int) : UserDoc :=
  { tasks := ts
    stats := { total_completed := (completedCount ts : Int), created_at := now } }

/-- Legacy handling inside `add_task` (line 84): wraps the bare list but
initialises `total_completed` to `0` instead of counting. -/
def migrateLegacyAdd (ts : List Task) (now : Int) : UserDoc :=
  { tasks := ts
    stats := { total_completed := 0, created_at := now } }

/-- The fresh document bootstrapped by `add_task` when the blob is absent
or fails to load. -/
def freshDoc (now : Int) : UserDoc :=
  { tasks := [], stats := { total_completed := 0, created_at := now } }

/-! ## Endpoint: add_task -/

inductive AddTaskResult where
  /-- 400 "Username is required". -/
  | missingUsername
  /-- Unhandled `KeyError` from `task_data["text"]`: the request dies
  with an internal error, outside the endpoint's handled responses. -/
  | keyError
  /-- 201 with the new task and the document's stats. -/
  | ok (task : Task) (stats : Stats)
  deriving Repr, DecidableEq

/-- `POST /add_task`.  Loads the blob treating any load failure (absent
key, undecodable bytes) as a fresh empty document; wraps a legacy list
with zeroed stats; appends the new task (file upload side-channel
omitted: `file_url` stays `None` on the no-attachment path) and writes
the whole document back. -/
def add_task (username : Option String) (text : Option String)
    (stored : Stored) (now nowMs : Int) : AddTaskResult × Stored :=
  if falsy username then (.missingUsername, stored)
  else
    let user_data : UserDoc :=
      match stored with
      | .canonical d => d
      | .legacy ts => migrateLegacyAdd ts now
      | .absent => freshDoc now
      | .corrupt => freshDoc now
    match text with
    | none => (.keyError, stored)
    | some txt =>
      let new_task : Task :=
        { id := nowMs, text := txt, file_url := none
          completed := false, created_at := now, last_edited := none }
      let d : UserDoc := { user_data with tasks := user_data.tasks ++ [new_task] }
      (.ok new_task d.stats, .canonical d)

/-! ## Endpoint: list_tasks -/

inductive ListTasksResult where
  | missingUsername
  /-- 404 "No tasks found for this user" (absent blob or decode error). -/
  | notFound
  | ok (tasks : List Task) (stats : Stats)
  deriving Repr, DecidableEq

/-- `GET /list_tasks`.  A legacy list is migrated with recomputed stats
and written back; a canonical document is returned as stored, stats
untouched. -/
def list_tasks (username : Option String) (stored : Stored) (now : Int) :
    ListTasksResult × Stored :=
  if falsy username then (.missingUsername, stored)
  else
    match stored with
    | .absent => (.notFound, stored)
    | .corrupt => (.notFound, stored)
    | .legacy ts =>
      let d := migrateLegacy ts now
      (.ok d.tasks d.stats, .canonical d)
    | .canonical d => (.ok d.tasks d.stats, stored)

/-! ## Endpoint: mark_task_completed -/

inductive MarkResult where
  /-- 400 "Username and task ID are required". -/
  | missingFields
  /-- 404 "Task not found". -/
  | notFoundTask
  /-- 404 "Error processing task" (absent blob or decode error). -/
  | notFoundError
  | ok (task : Task) (stats : Stats)
  deriving Repr, DecidableEq

/-- Shared body of `mark_task_completed` after the document is in
memory: increments `total_completed` only when the found task was not
yet completed, then sets it completed and persists.  `orig` is the blob
state left untouched when the task is not found. -/
def markBody (d : UserDoc) (tid : Int) (orig : Stored) : MarkResult × Stored :=
  match findTask d.tasks tid with
  | none => (.notFoundTask, orig)
  | some t =>
    let stats' :=
      if t.completed then d.stats
      else { d.stats with total_completed := d.stats.total_completed + 1 }
    let d' : UserDoc := { tasks := markFirst d.tasks tid, stats := stats' }
    (.ok { t with completed := true } stats', .canonical d')

/-- `POST /mark_task_completed`. -/
def mark_task_completed (username : Option String) (task_id : Option Int)
    (stored : Stored) (now : Int) : MarkResult × Stored :=
  if falsy username || task_id.isNone then (.missingFields, stored)
  else
    match task_id with
    | none => (.missingFields, stored)
    | some tid =>
      match stored with
      | .absent => (.notFoundError, stored)
      | .corrupt => (.notFoundError, stored)
      | .legacy ts => markBody (migrateLegacy ts now) tid stored
      | .canonical d => markBody d tid stored

/-! ## Endpoint: delete_task -/

/-- The `task_id` query parameter of `delete_task`: missing/empty,
a string `int()` rejects, or a string parsing to an integer. -/
inductive IdArg where
  | missing
  | malformed
  | valid (n : Int)
  deriving Repr, DecidableEq

inductive DeleteResult where
  /-- 400 "Username and task ID are required". -/
  | missingFields
  /-- 400 "Task ID must be a number". -/
  | invalidArgument
  /-- 404 "Task not found". -/
  | notFoundTask
  /-- 404 "Error deleting task" (absent blob or decode error). -/
  | notFoundError
  | ok (stats : Stats)
  deriving Repr, DecidableEq

/-- Shared body of `delete_task` after the document is in memory:
removes the first matching task; if it was completed, decrements
`total_completed` with `max(0, ...)`. -/
def deleteBody (d : UserDoc) (tid : Int) (orig : Stored) : DeleteResult × Stored :=
  match removeFirst d.tasks tid with
  | none => (.notFoundTask, orig)
  | some (t, rest) =>
    let stats' :=
      if t.completed then
        { d.stats with total_completed := max 0 (d.stats.total_completed - 1) }
      else d.stats
    let d' : UserDoc := { tasks := rest, stats := stats' }
    (.ok stats', .canonical d')

/-- `DELETE /delete_task`. -/
def delete_task (username : Option String) (task_id : IdArg)
    (stored : Stored) (now : Int) : DeleteResult × Stored :=
  if falsy username || task_id = IdArg.missing then (.missingFields, stored)
  else
    match task_id with
    | .missing => (.missingFields, stored)
    | .malformed => (.invalidArgument, stored)
    | .valid tid =>
      match stored with
      | .absent => (.notFoundError, stored)
      | .corrupt => (.notFoundError, stored)
      | .legacy ts => deleteBody (migrateLegacy ts now) tid stored
      | .canonical d => deleteBody d tid stored

/-! ## Endpoint: edit_task -/

inductive EditResult where
  | missingFields
  | notFoundTask
  | notFoundError
  | ok (task : Task) (stats : Stats)
  deriving Repr, DecidableEq

/-- Shared body of `edit_task` after the document is in memory. -/
def editBody (d : UserDoc) (tid : Int) (txt : String) (now : Int)
    (orig : Stored) : EditResult × Stored :=
  match findTask d.tasks tid with
  | none => (.notFoundTask, orig)
  | some t =>
    let t' : Task := { t with text := txt, last_edited := some now }
    let d' : UserDoc := { tasks := editFirst d.tasks tid txt now, stats := d.stats }
    (.ok t' d.stats, .canonical d')

/-- `PUT /edit_task`. -/
def edit_task (username : Option String) (task_id : Option Int)
    (text : Option String) (stored : Stored) (now : Int) :
    EditResult × Stored :=
  if falsy username || task_id.isNone || text.isNone then (.missingFields, stored)
  else
    match task_id, text with
    | some tid, some txt =>
      (match stored with
       | .absent => (.notFoundError, stored)
       | .corrupt => (.notFoundError, stored)
       | .legacy ts => editBody (migrateLegacy ts now) tid txt now stored
       | .canonical d => editBody d tid txt now stored)
    | _, _ => (.missingFields, stored)

/-! ## Endpoint: get_stats -/

inductive GetStatsResult where
  | missingUsername
  /-- 404 "Error retrieving stats" (absent blob or decode error). -/
  | notFoundError
  | ok (stats : Stats)
  deriving Repr, DecidableEq

/-- `GET /get_stats`.  On a legacy list: computes stats fresh and
returns them without any write-back.  On a canonical document: sets
`active_tasks` on the (aliased) stats object, and only if
`total_completed` drifted from the recount does it overwrite the field
and upload the document — the uploaded stats then carry `active_tasks`
because the same dict was mutated in place. -/
def get_stats (username : Option String) (stored : Stored) (now : Int) :
    GetStatsResult × Stored :=
  if falsy username then (.missingUsername, stored)
  else
    match stored with
    | .absent => (.notFoundError, stored)
    | .corrupt => (.notFoundError, stored)
    | .legacy ts =>
      let stats : Stats :=
        { total_completed := (completedCount ts : Int)
          created_at := now
          active_tasks := some (activeCount ts) }
      (.ok stats, stored)
    | .canonical d =>
      let completed_tasks := (completedCount d.tasks : Int)
      let stats0 : Stats := { d.stats with active_tasks := some (activeCount d.tasks) }
      if stats0.total_completed ≠ completed_tasks then
        let stats1 : Stats := { stats0 with total_completed := completed_tasks }
        (.ok stats1, .canonical { d with stats := stats1 })
      else
        (.ok stats0, stored)

/-! ## List-level lemmas -/

theorem findTask_markFirst (ts : List Task) (tid : Int) :
    findTask (markFirst ts tid) tid =
      (findTask ts tid).map fun t => { t with completed := true } := by
  induction ts with
  | nil => simp [findTask, markFirst]
  | cons t rest ih =>
    by_cases h : t.id = tid
    · simp [findTask, markFirst, h, List.find?_cons_of_pos]
    · simpa [findTask, markFirst, h, List.find?_cons_of_neg] using ih

theorem markFirst_idem (ts : List Task) (tid : Int) :
    markFirst (markFirst ts tid) tid = markFirst ts tid := by
  induction ts with
  | nil => rfl
  | cons t rest ih =>
    by_cases h : t.id = tid
    · simp [markFirst, h]
    · simp [markFirst, h, ih]

theorem findTask_append (pre post : List Task) (t : Task) (tid : Int)
    (hpre : ∀ x ∈ pre, x.id ≠ tid) (ht : t.id = tid) :
    findTask (pre ++ t :: post) tid = some t := by
  induction pre with
  | nil => simp [findTask, ht]
  | cons p rest ih =>
    have hp : ¬ p.id = tid := hpre p (by simp)
    have := ih (fun x hx => hpre x (by simp [hx]))
    simpa [findTask, List.find?_cons_of_neg, hp] using this

theorem markFirst_append (pre post : List Task) (t : Task) (tid : Int)
    (hpre : ∀ x ∈ pre, x.id ≠ tid) (ht : t.id = tid) :
    markFirst (pre ++ t :: post) tid =
      pre ++ { t with completed := true } :: post := by
  induction pre with
  | nil => simp [markFirst, ht]
  | cons p rest ih =>
    have hp : ¬ p.id = tid := hpre p (by simp)
    have := ih (fun x hx => hpre x (by simp [hx]))
    simp [markFirst, hp, this]

theorem editFirst_append (pre post : List Task) (t : Task) (tid : Int)
    (txt : String) (now : Int)
    (hpre : ∀ x ∈ pre, x.id ≠ tid) (ht : t.id = tid) :
    editFirst (pre ++ t :: post) tid txt now =
      pre ++ { t with text := txt, last_edited := some now } :: post := by
  induction pre with
  | nil => simp [editFirst, ht]
  | cons p rest ih =>
    have hp : ¬ p.id = tid := hpre p (by simp)
    have := ih (fun x hx => hpre x (by simp [hx]))
    simp [editFirst, hp, this]

theorem removeFirst_append (pre post : List Task) (t : Task) (tid : Int)
    (hpre : ∀ x ∈ pre, x.id ≠ tid) (ht : t.id = tid) :
    removeFirst (pre ++ t :: post) tid = some (t, pre ++ post) := by
  induction pre with
  | nil => simp [removeFirst, ht]
  | cons p rest ih =>
    have hp : ¬ p.id = tid := hpre p (by simp)
    have := ih (fun x hx => hpre x (by simp [hx]))
    simp [removeFirst, hp, this]

/-! ## Concrete sample data for witnesses and counterexamples -/

/-- A completed task. -/
def doneTask : Task :=
  { id := 1, text := "x", file_url := none, completed := true
    created_at := 0, last_edited := none }

/-- An active (not completed) task. -/
def openTask : Task :=
  { id := 2, text := "y", file_url := none, completed := false
    created_at := 0, last_edited := none }

/-- A second task sharing `doneTask`'s id (sub-millisecond collision),
not completed. -/
def dupTask : Task :=
  { id := 1, text := "dup", file_url := none, completed := false
    created_at := 0, last_edited := none }

/-- A canonical document whose stored counter (5) disagrees with the
actual completed count (1). -/
def driftDoc : UserDoc :=
  { tasks := [doneTask], stats := { total_completed := 5, created_at := 0 } }

/-- A canonical document with one completed task but a stored counter
already at 0 (pre-corrupted low). -/
def zeroDoc : UserDoc :=
  { tasks := [doneTask], stats := { total_completed := 0, created_at := 0 } }

/-! ## C5 — AddTask with missing text -/

/-- C5 counterexample: on a well-formed request lacking only `text`,
`add_task` dies with the unhandled `KeyError` from `task_data["text"]`,
which is not the handled 400 validation response used for a missing
username. -/
theorem C5_counterexample :
    (add_task (some "u") none (Stored.canonical zeroDoc) 0 0).1 =
      AddTaskResult.keyError ∧
    AddTaskResult.keyError ≠ AddTaskResult.missingUsername := by
  constructor
  · rfl
  · decide

/-- C5 (amended): for every stored state, AddTask with the text field
missing fails with an unhandled `KeyError` (not a handled
`ValidationError` response) and leaves storage unchanged. -/
theorem C5_missing_text_no_persist (u : String) (stored : Stored)
    (now nowMs : Int) (hu : u ≠ "") :
    add_task (some u) none stored now nowMs = (AddTaskResult.keyError, stored) := by
  simp [add_task, falsy, hu]

/-- C5 witness at a concrete input. -/
theorem C5_witness :
    add_task (some "u") none (Stored.legacy [doneTask]) 3 4 =
      (AddTaskResult.keyError, Stored.legacy [doneTask]) :=
  C5_missing_text_no_persist "u" (Stored.legacy [doneTask]) 3 4 (by decide)

/-! ## C8 — EditTask on a nonexistent id -/

/-- C8: when no task in the document has the requested id, EditTask
returns the task-not-found failure and the stored document is exactly
what it was: no task field, no task-list content and no stats change. -/
theorem C8_edit_notfound_unchanged (u : String) (tid : Int) (txt : String)
    (d : UserDoc) (now : Int) (hu : u ≠ "")
    (h : findTask d.tasks tid = none) :
    edit_task (some u) (some tid) (some txt) (Stored.canonical d) now =
      (EditResult.notFoundTask, Stored.canonical d) := by
  simp [edit_task, falsy, hu, editBody, h]

/-- C8 witness at a concrete input: id 7 is absent from `driftDoc`. -/
theorem C8_witness :
    edit_task (some "u") (some 7) (some "new") (Stored.canonical driftDoc) 9 =
      (EditResult.notFoundTask, Stored.canonical driftDoc) :=
  C8_edit_notfound_unchanged "u" 7 "new" driftDoc 9 (by decide) (by decide)

/-! ## C10 — AddTask on a corrupt stored document -/

/-- C10: a stored blob whose bytes fail to decode is treated by AddTask
exactly like an absent key: no decode error is surfaced, a fresh empty
document is bootstrapped, and the persisted result contains only the
newly added task, replacing the corrupt contents. -/
theorem C10_corrupt_bootstraps (u : String) (txt : String) (now nowMs : Int)
    (hu : u ≠ "") :
    add_task (some u) (some txt) Stored.corrupt now nowMs =
      add_task (some u) (some txt) Stored.absent now nowMs ∧
    ∃ tk, add_task (some u) (some txt) Stored.corrupt now nowMs =
        (AddTaskResult.ok tk (freshDoc now).stats,
         Stored.canonical { tasks := [tk], stats := (freshDoc now).stats }) ∧
      tk.text = txt ∧ tk.completed = false := by
  constructor
  · simp [add_task, falsy, hu]
  · refine ⟨{ id := nowMs, text := txt, file_url := none, completed := false,
              created_at := now, last_edited := none }, ?_, rfl, rfl⟩
    simp [add_task, falsy, hu, freshDoc]

/-- C10 witness at a concrete input. -/
theorem C10_witness :
    add_task (some "u") (some "milk") Stored.corrupt 5 6 =
      add_task (some "u") (some "milk") Stored.absent 5 6 ∧
    ∃ tk, add_task (some "u") (some "milk") Stored.corrupt 5 6 =
        (AddTaskResult.ok tk (freshDoc 5).stats,
         Stored.canonical { tasks := [tk], stats := (freshDoc 5).stats }) ∧
      tk.text = "milk" ∧ tk.completed = false :=
  C10_corrupt_bootstraps "u" "milk" 5 6 (by decide)

/-! ## C6 — DeleteTask on a completed task: floored decrement -/

/-- C6: deleting a (first-matching) completed task removes it from the
task list and sets `total_completed` to `max 0 (old - 1)`, which is
never negative — including when the stored counter was already 0. -/
theorem C6_delete_completed_floor (u : String) (tid : Int) (d : UserDoc)
    (now : Int) (t : Task) (rest : List Task) (hu : u ≠ "")
    (h : removeFirst d.tasks tid = some (t, rest)) (hc : t.completed = true) :
    delete_task (some u) (IdArg.valid tid) (Stored.canonical d) now =
      (DeleteResult.ok
         { d.stats with total_completed := max 0 (d.stats.total_completed - 1) },
       Stored.canonical
         { tasks := rest
           stats :=
             { d.stats with total_completed := max 0 (d.stats.total_completed - 1) } }) ∧
    0 ≤ max 0 (d.stats.total_completed - 1) := by
  constructor
  · simp [delete_task, falsy, hu, deleteBody, h, hc]
  · exact le_max_left 0 _

/-- C6 witness: the stored counter starts at 0 and stays 0 after
deleting the completed task. -/
theorem C6_witness :
    delete_task (some "u") (IdArg.valid 1) (Stored.canonical zeroDoc) 0 =
      (DeleteResult.ok
         { zeroDoc.stats with total_completed := max 0 (zeroDoc.stats.total_completed - 1) },
       Stored.canonical
         { tasks := []
           stats :=
             { zeroDoc.stats with
                 total_completed := max 0 (zeroDoc.stats.total_completed - 1) } }) ∧
    0 ≤ max 0 (zeroDoc.stats.total_completed - 1) :=
  C6_delete_completed_floor "u" 1 zeroDoc 0 doneTask [] (by decide) (by decide) (by decide)

/-! ## C1 — reconciliation at every observable boundary? -/

/-- C1 counterexample: on a canonical document whose stored counter (5)
disagrees with the completed count (1), ListTasks returns the drifted
stats verbatim and does not touch storage — no reconciliation on this
read path. -/
theorem C1_counterexample :
    list_tasks (some "u") (Stored.canonical driftDoc) 0 =
      (ListTasksResult.ok [doneTask] { total_completed := 5, created_at := 0 },
       Stored.canonical driftDoc) ∧
    (5 : Int) ≠ (completedCount driftDoc.tasks : Int) := by
  constructor
  · rfl
  · decide

/-- C1 (amended): only GetStats reconciles — on every canonical document
it returns stats whose `total_completed` equals the completed count
(writing the document back when they drifted), while ListTasks returns
the stored stats verbatim and leaves storage untouched. -/
theorem C1_reconcile_only_getstats (u : String) (d : UserDoc) (now : Int)
    (hu : u ≠ "") :
    (∃ s, (get_stats (some u) (Stored.canonical d) now).1 = GetStatsResult.ok s ∧
       s.total_completed = (completedCount d.tasks : Int)) ∧
    list_tasks (some u) (Stored.canonical d) now =
      (ListTasksResult.ok d.tasks d.stats, Stored.canonical d) := by
  constructor
  · by_cases h : d.stats.total_completed = (completedCount d.tasks : Int)
    · exact ⟨{ d.stats with active_tasks := some (activeCount d.tasks) },
        by simp [get_stats, falsy, hu, h], h⟩
    · refine ⟨{ total_completed := (completedCount d.tasks : Int)
                created_at := d.stats.created_at
                active_tasks := some (activeCount d.tasks) }, ?_, rfl⟩
      simp [get_stats, falsy, hu, h]
  · simp [list_tasks, falsy, hu]

/-- C1 witness at a concrete input. -/
theorem C1_witness :
    (∃ s, (get_stats (some "u") (Stored.canonical driftDoc) 0).1 = GetStatsResult.ok s ∧
       s.total_completed = (completedCount driftDoc.tasks : Int)) ∧
    list_tasks (some "u") (Stored.canonical driftDoc) 0 =
      (ListTasksResult.ok driftDoc.tasks driftDoc.stats, Stored.canonical driftDoc) :=
  C1_reconcile_only_getstats "u" driftDoc 0 (by decide)

/-! ## C3 — legacy migration stats on the AddTask path -/

/-- C3 counterexample: adding a task to a legacy list holding one
completed task persists `total_completed = 0`, not the completed
count 1 — AddTask's migration zeroes the counter instead of counting. -/
theorem C3_counterexample :
    (add_task (some "u") (some "y") (Stored.legacy [doneTask]) 0 2).2 =
      Stored.canonical
        { tasks := [doneTask, openTask]
          stats := { total_completed := 0, created_at := 0 } } ∧
    (completedCount [doneTask] : Int) = 1 ∧ (0 : Int) ≠ 1 := by
  refine ⟨rfl, by decide, by decide⟩

/-- C3 (amended): the read/mutation load paths other than AddTask
(represented here by ListTasks) migrate a legacy list with
`total_completed` equal to the completed count, but the AddTask load
path wraps the legacy list with `total_completed = 0` regardless of how
many tasks are completed. -/
theorem C3_migration_counts_except_addtask (u : String) (ts : List Task)
    (txt : String) (now nowMs : Int) (hu : u ≠ "") :
    (list_tasks (some u) (Stored.legacy ts) now).1 =
      ListTasksResult.ok ts
        { total_completed := (completedCount ts : Int), created_at := now } ∧
    ∀ tk s, (add_task (some u) (some txt) (Stored.legacy ts) now nowMs).1 =
        AddTaskResult.ok tk s → s.total_completed = 0 := by
  constructor
  · simp [list_tasks, falsy, hu, migrateLegacy]
  · intro tk s h
    simp [add_task, falsy, hu, migrateLegacyAdd] at h
    rcases h with ⟨h1, h2⟩
    subst h2
    rfl

/-- C3 witness at a concrete input. -/
theorem C3_witness :
    (list_tasks (some "u") (Stored.legacy [doneTask]) 0).1 =
      ListTasksResult.ok [doneTask]
        { total_completed := (completedCount [doneTask] : Int), created_at := 0 } ∧
    ∀ tk s, (add_task (some "u") (some "y") (Stored.legacy [doneTask]) 0 2).1 =
        AddTaskResult.ok tk s → s.total_completed = 0 :=
  C3_migration_counts_except_addtask "u" [doneTask] "y" 0 2 (by decide)

/-! ## C4 — write-back migration on read paths -/

/-- C4 counterexample: GetStats on a legacy document returns computed
stats successfully yet leaves the legacy list in storage — no write-back
migration on this read path. -/
theorem C4_counterexample :
    get_stats (some "u") (Stored.legacy [doneTask]) 0 =
      (GetStatsResult.ok
         { total_completed := 1, created_at := 0, active_tasks := some 0 },
       Stored.legacy [doneTask]) := by
  rfl

/-- C4 (amended): ListTasks persists the migrated canonical document on
detecting the legacy shape, but GetStats does not — it returns computed
stats and leaves the legacy document in storage, so the migration will
run again on the next load. -/
theorem C4_writeback_list_not_getstats (u : String) (ts : List Task)
    (now : Int) (hu : u ≠ "") :
    (list_tasks (some u) (Stored.legacy ts) now).2 =
      Stored.canonical (migrateLegacy ts now) ∧
    (get_stats (some u) (Stored.legacy ts) now).2 = Stored.legacy ts := by
  constructor
  · simp [list_tasks, falsy, hu]
  · simp [get_stats, falsy, hu]

/-- C4 witness at a concrete input. -/
theorem C4_witness :
    (list_tasks (some "u") (Stored.legacy [doneTask]) 0).2 =
      Stored.canonical (migrateLegacy [doneTask] 0) ∧
    (get_stats (some "u") (Stored.legacy [doneTask]) 0).2 =
      Stored.legacy [doneTask] :=
  C4_writeback_list_not_getstats "u" [doneTask] 0 (by decide)

/-! ## C2 — completion idempotence -/

/-- A canonical document with one active task. -/
def openDoc : UserDoc :=
  { tasks := [openTask], stats := { total_completed := 0, created_at := 0 } }

/-- C2: marking a task completed twice produces exactly the response and
stored document of marking it once; when the (first-matching) task was
not yet completed, the single call sets it completed and increments
`total_completed` by 1. -/
theorem C2_mark_twice_once (u : String) (tid : Int) (d : UserDoc)
    (now1 now2 : Int) (t : Task) (hu : u ≠ "")
    (h : findTask d.tasks tid = some t) :
    mark_task_completed (some u) (some tid)
        (mark_task_completed (some u) (some tid) (Stored.canonical d) now1).2 now2 =
      mark_task_completed (some u) (some tid) (Stored.canonical d) now1 ∧
    (t.completed = false →
      mark_task_completed (some u) (some tid) (Stored.canonical d) now1 =
        (MarkResult.ok { t with completed := true }
           { d.stats with total_completed := d.stats.total_completed + 1 },
         Stored.canonical
           { tasks := markFirst d.tasks tid
             stats :=
               { d.stats with
                   total_completed := d.stats.total_completed + 1 } })) := by
  have e1 : mark_task_completed (some u) (some tid) (Stored.canonical d) now1 =
      markBody d tid (Stored.canonical d) := by
    simp [mark_task_completed, falsy, hu]
  have e2 : markBody d tid (Stored.canonical d) =
      (MarkResult.ok { t with completed := true }
         (if t.completed then d.stats
          else { d.stats with total_completed := d.stats.total_completed + 1 }),
       Stored.canonical
         { tasks := markFirst d.tasks tid
           stats :=
             if t.completed then d.stats
             else { d.stats with
                      total_completed := d.stats.total_completed + 1 } }) := by
    simp [markBody, h]
  have hf2 : findTask (markFirst d.tasks tid) tid =
      some { t with completed := true } := by
    rw [findTask_markFirst, h]
    rfl
  have e3 : mark_task_completed (some u) (some tid)
      (Stored.canonical
        { tasks := markFirst d.tasks tid
          stats :=
            if t.completed then d.stats
            else { d.stats with
                     total_completed := d.stats.total_completed + 1 } }) now2 =
      (MarkResult.ok { t with completed := true }
         (if t.completed then d.stats
          else { d.stats with total_completed := d.stats.total_completed + 1 }),
       Stored.canonical
         { tasks := markFirst d.tasks tid
           stats :=
             if t.completed then d.stats
             else { d.stats with
                      total_completed := d.stats.total_completed + 1 } }) := by
    simp [mark_task_completed, falsy, hu, markBody, hf2, markFirst_idem]
  constructor
  · rw [e1, e2]
    exact e3
  · intro hc
    rw [e1, e2]
    simp [hc]

/-- C2 witness: a concrete document with one active task. -/
theorem C2_witness :
    mark_task_completed (some "u") (some 2)
        (mark_task_completed (some "u") (some 2) (Stored.canonical openDoc) 3).2 4 =
      mark_task_completed (some "u") (some 2) (Stored.canonical openDoc) 3 ∧
    (openTask.completed = false →
      mark_task_completed (some "u") (some 2) (Stored.canonical openDoc) 3 =
        (MarkResult.ok { openTask with completed := true }
           { openDoc.stats with
               total_completed := openDoc.stats.total_completed + 1 },
         Stored.canonical
           { tasks := markFirst openDoc.tasks 2
             stats :=
               { openDoc.stats with
                   total_completed := openDoc.stats.total_completed + 1 } })) :=
  C2_mark_twice_once "u" 2 openDoc 3 4 openTask (by decide) rfl

/-! ## C9 — duplicate ids: the first match in insertion order wins -/

/-- C9: when the task list splits as `pre ++ t :: post` with no task in
`pre` carrying the requested id and `t` carrying it, MarkCompleted,
EditTask and DeleteTask each act on `t` alone; everything in `post` —
including later tasks with the same id — is persisted untouched. -/
theorem C9_first_match_operations (u : String) (tid : Int)
    (pre post : List Task) (t : Task) (txt : String) (stats : Stats)
    (now : Int) (hu : u ≠ "")
    (hpre : ∀ x ∈ pre, x.id ≠ tid) (ht : t.id = tid) :
    (mark_task_completed (some u) (some tid)
        (Stored.canonical { tasks := pre ++ t :: post, stats := stats }) now).2 =
      Stored.canonical
        { tasks := pre ++ { t with completed := true } :: post
          stats :=
            if t.completed then stats
            else { stats with total_completed := stats.total_completed + 1 } } ∧
    (edit_task (some u) (some tid) (some txt)
        (Stored.canonical { tasks := pre ++ t :: post, stats := stats }) now).2 =
      Stored.canonical
        { tasks := pre ++ { t with text := txt, last_edited := some now } :: post
          stats := stats } ∧
    (delete_task (some u) (IdArg.valid tid)
        (Stored.canonical { tasks := pre ++ t :: post, stats := stats }) now).2 =
      Stored.canonical
        { tasks := pre ++ post
          stats :=
            if t.completed then
              { stats with total_completed := max 0 (stats.total_completed - 1) }
            else stats } := by
  have hf := findTask_append pre post t tid hpre ht
  have hm := markFirst_append pre post t tid hpre ht
  have he := editFirst_append pre post t tid txt now hpre ht
  have hr := removeFirst_append pre post t tid hpre ht
  refine ⟨?_, ?_, ?_⟩
  · simp [mark_task_completed, falsy, hu, markBody, hf, hm]
  · simp [edit_task, falsy, hu, editBody, hf, he]
  · simp [delete_task, falsy, hu, deleteBody, hr]

/-- C9 witness: `doneTask` (id 1) precedes `dupTask` (also id 1); the
operations touch only the first and persist the duplicate unchanged. -/
theorem C9_witness :
    (mark_task_completed (some "u") (some 1)
        (Stored.canonical
          { tasks := [openTask] ++ doneTask :: [dupTask]
            stats := { total_completed := 1, created_at := 0 } }) 7).2 =
      Stored.canonical
        { tasks := [openTask] ++ { doneTask with completed := true } :: [dupTask]
          stats :=
            if doneTask.completed then
              ({ total_completed := 1, created_at := 0 } : Stats)
            else { ({ total_completed := 1, created_at := 0 } : Stats) with
                     total_completed := 1 + 1 } } ∧
    (edit_task (some "u") (some 1) (some "z")
        (Stored.canonical
          { tasks := [openTask] ++ doneTask :: [dupTask]
            stats := { total_completed := 1, created_at := 0 } }) 7).2 =
      Stored.canonical
        { tasks :=
            [openTask] ++ { doneTask with text := "z", last_edited := some 7 } :: [dupTask]
          stats := { total_completed := 1, created_at := 0 } } ∧
    (delete_task (some "u") (IdArg.valid 1)
        (Stored.canonical
          { tasks := [openTask] ++ doneTask :: [dupTask]
            stats := { total_completed := 1, created_at := 0 } }) 7).2 =
      Stored.canonical
        { tasks := [openTask] ++ [dupTask]
          stats :=
            if doneTask.completed then
              { ({ total_completed := 1, created_at := 0 } : Stats) with
                  total_completed := max 0 (1 - 1) }
            else ({ total_completed := 1, created_at := 0 } : Stats) } :=
  C9_first_match_operations "u" 1 [openTask] [dupTask] doneTask "z"
    { total_completed := 1, created_at := 0 } 7 (by decide) (by decide) (by decide)

/-! ## C7 — is active_tasks ever persisted? -/

/-- Holds of a stored state whose canonical document (if it is one)
carries no persisted `active_tasks` field. -/
def storedActiveAbsent : Stored → Prop
  | Stored.canonical d => d.stats.active_tasks = none
  | _ => True

theorem markBody_activeAbsent (d : UserDoc) (tid : Int) (o : Stored)
    (hnone : d.stats.active_tasks = none) (ho : storedActiveAbsent o) :
    storedActiveAbsent (markBody d tid o).2 := by
  unfold markBody
  cases hf : findTask d.tasks tid with
  | none => simpa using ho
  | some t => cases hc : t.completed <;> simp [storedActiveAbsent, hnone, hc]

theorem deleteBody_activeAbsent (d : UserDoc) (tid : Int) (o : Stored)
    (hnone : d.stats.active_tasks = none) (ho : storedActiveAbsent o) :
    storedActiveAbsent (deleteBody d tid o).2 := by
  unfold deleteBody
  cases hf : removeFirst d.tasks tid with
  | none => simpa using ho
  | some p => cases hc : p.1.completed <;> simp [storedActiveAbsent, hnone, hc]

theorem editBody_activeAbsent (d : UserDoc) (tid : Int) (txt : String)
    (now : Int) (o : Stored)
    (hnone : d.stats.active_tasks = none) (ho : storedActiveAbsent o) :
    storedActiveAbsent (editBody d tid txt now o).2 := by
  unfold editBody
  cases hf : findTask d.tasks tid with
  | none => simpa using ho
  | some t => simp [storedActiveAbsent, hnone]

/-- C7 counterexample: on a canonical document with a drifted counter,
GetStats' self-heal write-back persists a stats object that carries
`active_tasks` — the field is written into the stored document. -/
theorem C7_counterexample :
    (get_stats (some "u") (Stored.canonical driftDoc) 0).2 =
      Stored.canonical
        { tasks := [doneTask]
          stats :=
            { total_completed := 1, created_at := 0, active_tasks := some 0 } } ∧
    some 0 ≠ (none : Option Nat) := by
  refine ⟨rfl, by decide⟩

/-- C7 (amended): `active_tasks` is computed on demand; AddTask,
MarkCompleted, DeleteTask, EditTask and ListTasks never write it into
storage, but GetStats' self-heal write-back on a drifted canonical
document persists stats that include `active_tasks`. -/
theorem C7_active_tasks_on_demand (u : String) (d : UserDoc) (tid : Int)
    (txt : String) (now nowMs : Int) (hu : u ≠ "")
    (hnone : d.stats.active_tasks = none) :
    storedActiveAbsent
      (add_task (some u) (some txt) (Stored.canonical d) now nowMs).2 ∧
    storedActiveAbsent
      (mark_task_completed (some u) (some tid) (Stored.canonical d) now).2 ∧
    storedActiveAbsent
      (delete_task (some u) (IdArg.valid tid) (Stored.canonical d) now).2 ∧
    storedActiveAbsent
      (edit_task (some u) (some tid) (some txt) (Stored.canonical d) now).2 ∧
    (list_tasks (some u) (Stored.canonical d) now).2 = Stored.canonical d ∧
    (d.stats.total_completed ≠ (completedCount d.tasks : Int) →
      (get_stats (some u) (Stored.canonical d) now).2 =
        Stored.canonical
          { tasks := d.tasks
            stats :=
              { total_completed := (completedCount d.tasks : Int)
                created_at := d.stats.created_at
                active_tasks := some (activeCount d.tasks) } }) := by
  have ho : storedActiveAbsent (Stored.canonical d) := hnone
  refine ⟨?_, ?_, ?_, ?_, ?_, ?_⟩
  · simp [add_task, falsy, hu, storedActiveAbsent, hnone]
  · have e : mark_task_completed (some u) (some tid) (Stored.canonical d) now =
        markBody d tid (Stored.canonical d) := by
      simp [mark_task_completed, falsy, hu]
    rw [e]
    exact markBody_activeAbsent d tid _ hnone ho
  · have e : delete_task (some u) (IdArg.valid tid) (Stored.canonical d) now =
        deleteBody d tid (Stored.canonical d) := by
      simp [delete_task, falsy, hu]
    rw [e]
    exact deleteBody_activeAbsent d tid _ hnone ho
  · have e : edit_task (some u) (some tid) (some txt) (Stored.canonical d) now =
        editBody d tid txt now (Stored.canonical d) := by
      simp [edit_task, falsy, hu]
    rw [e]
    exact editBody_activeAbsent d tid txt now _ hnone ho
  · simp [list_tasks, falsy, hu]
  · intro hne
    simp [get_stats, falsy, hu, hne]

/-- C7 witness: the drifted document with no stored `active_tasks`. -/
theorem C7_witness :
    storedActiveAbsent
      (add_task (some "u") (some "t") (Stored.canonical driftDoc) 0 9).2 ∧
    storedActiveAbsent
      (mark_task_completed (some "u") (some 1) (Stored.canonical driftDoc) 0).2 ∧
    storedActiveAbsent
      (delete_task (some "u") (IdArg.valid 1) (Stored.canonical driftDoc) 0).2 ∧
    storedActiveAbsent
      (edit_task (some "u") (some 1) (some "t") (Stored.canonical driftDoc) 0).2 ∧
    (list_tasks (some "u") (Stored.canonical driftDoc) 0).2 =
      Stored.canonical driftDoc ∧
    (driftDoc.stats.total_completed ≠ (completedCount driftDoc.tasks : Int) →
      (get_stats (some "u") (Stored.canonical driftDoc) 0).2 =
        Stored.canonical
          { tasks := driftDoc.tasks
            stats :=
              { total_completed := (completedCount driftDoc.tasks : Int)
                created_at := driftDoc.stats.created_at
                active_tasks := some (activeCount driftDoc.tasks) } }) :=
  C7_active_tasks_on_demand "u" driftDoc 1 "t" 0 9 (by decide) rfl

end Taskbox
